import Mathlib

/-!
Formal embedding of `signal_bot_15m.py`, a 15-minute candlestick signal
scanner. The script fetches OHLCV bars per trading pair, classifies the
second-from-newest bar as Hammer / Shooting Star / neither, notifies a
webhook and appends a log line, sleeping until each 15-minute boundary.
Prices are modelled as exact rationals; the per-pair loop is modelled by
explicit result passing (`Except` for fallible steps). Definitions come
first, followed by the theorems about them.
-/

namespace SignalBot

/-- An OHLCV bar as consumed by the pattern detectors: the `candle` dict
built in `analyze_pair` keeps only open, high, low, close. The Python
field `open` is a Lean keyword, hence `open_`. -/
structure Bar where
  open_ : ℚ
  high : ℚ
  low : ℚ
  close : ℚ
deriving Repr, DecidableEq

/-- Embeds `is_hammer_candle` (src/signal_bot_15m.py lines 48-55):
body = abs(close - open); returns False on zero body, otherwise
(min(o, cl) - l > body * 1.8) and (h - max(o, cl) < body * 0.6). -/
def is_hammer_candle (c : Bar) : Bool :=
  let o := c.open_
  let h := c.high
  let l := c.low
  let cl := c.close
  let body := |cl - o|
  if body = 0 then
    false
  else
    (min o cl - l > body * 1.8) && (h - max o cl < body * 0.6)

/-- Embeds `is_shooting_star_candle` (src/signal_bot_15m.py lines 57-64):
same body computation; (h - max(o, cl) > body * 1.8) and
(min(o, cl) - l < body * 0.6). -/
def is_shooting_star_candle (c : Bar) : Bool :=
  let o := c.open_
  let h := c.high
  let l := c.low
  let cl := c.close
  let body := |cl - o|
  if body = 0 then
    false
  else
    (h - max o cl > body * 1.8) && (min o cl - l < body * 0.6)

/-- body = |close - open| of a bar. -/
def bodyOf (c : Bar) : ℚ := |c.close - c.open_|

/-- lowerWick = min(open, close) - low. -/
def lowerWick (c : Bar) : ℚ := min c.open_ c.close - c.low

/-- upperWick = high - max(open, close). -/
def upperWick (c : Bar) : ℚ := c.high - max c.open_ c.close

/-- Embeds `seconds_until_next_15min` (src/signal_bot_15m.py lines
92-99): rem = now % (15 * 60); returns 0 if rem == 0 and
(15 * 60) - rem otherwise. The timestamp is an integer count of seconds
since the epoch, as produced by int(time.time()); Python % on a positive
modulus agrees with Int.emod. -/
def seconds_until_next_15min (now : ℤ) : ℤ :=
  let rem := now % (15 * 60)
  if rem = 0 then 0 else 15 * 60 - rem

/-- The configured pair list `PAIRS` (src/signal_bot_15m.py line 16). -/
def PAIRS : List String :=
  ["ETH/USDT", "BCH/USDT", "SOL/USDT", "TON/USDT", "LINK/USDT"]

/-- The pandas access `df.iloc[-2]` on the fetched bar sequence: the
second-from-newest element when at least two bars exist; otherwise the
access raises IndexError, modelled by `none`. -/
def ilocFromEnd2 (df : List Bar) : Option Bar :=
  if h : 2 ≤ df.length then some (df.get ⟨df.length - 2, by omega⟩) else none

/-- Embeds `analyze_pair` (src/signal_bot_15m.py lines 66-90),
parametrised by the outcome of its internal `fetch_ohlcv_df` call. A
fetch exception is caught inside and yields `ok []` (the early
`return []`). Otherwise `df.iloc[-2]` selects the second-from-newest bar;
with fewer than two bars that access raises an uncaught IndexError,
modelled by the error branch. On success the if/elif chain appends at
most one (type, direction, price) triple, checking Hammer first. -/
def analyze_pair (fetched : Except String (List Bar)) :
    Except String (List (String × String × ℚ)) :=
  match fetched with
  | Except.error _ => Except.ok []
  | Except.ok df =>
    match ilocFromEnd2 df with
    | none => Except.error "IndexError"
    | some last_closed =>
      Except.ok
        (if is_hammer_candle last_closed then
          [("HAMMER", "LONG", last_closed.close)]
        else if is_shooting_star_candle last_closed then
          [("SHOOTING_STAR", "SHORT", last_closed.close)]
        else [])

/-- Embeds the per-pair guard of the scanning loop in `main`
(src/signal_bot_15m.py lines 114-132): `analyze_pair` runs under
try/except, and on an analysis error the pair contributes no signals. -/
def pairScanResult (fetched : Except String (List Bar)) :
    List (String × String × ℚ) :=
  match analyze_pair fetched with
  | Except.ok sigs => sigs
  | Except.error _ => []

/-- Embeds one Scanning pass of `main` over the configured pairs,
parametrised by the fetch outcome of each pair: every pair is visited in
list order and contributes its guarded per-pair result. -/
def scanCycle (fetch : String → Except String (List Bar))
    (pairs : List String) : List (String × List (String × String × ℚ)) :=
  pairs.map (fun p => (p, pairScanResult (fetch p)))

/-- A zero-body bar, classified by neither detector. -/
def dojiBar : Bar := ⟨1, 1, 1, 1⟩

/-- The Hammer scenario bar of the spec: open=10, high=10.25, low=9,
close=10.2. -/
def hammerSampleBar : Bar := ⟨10, 10.25, 9, 10.2⟩

/-- The Shooting Star scenario bar of the spec: open=10, high=11,
low=9.75, close=9.8. -/
def starSampleBar : Bar := ⟨10, 11, 9.75, 9.8⟩

/-- A fetched sequence whose second-from-newest bar is the Hammer
scenario bar. -/
def sampleDf : List Bar := [dojiBar, hammerSampleBar, dojiBar]

/-- A fetch map for the witness cycles: the fetch for BCH/USDT raises,
the fetch for ETH/USDT returns a single (too short) bar sequence, and
every other pair fetch returns the sample sequence. -/
def sampleFetch (p : String) : Except String (List Bar) :=
  if p = "BCH/USDT" then Except.error "network"
  else if p = "ETH/USDT" then Except.ok [dojiBar]
  else Except.ok sampleDf

/-- An HTTP response as seen by `send_telegram`: status code and body
text. -/
structure HttpResponse where
  status_code : ℕ
  text : String
deriving Repr, DecidableEq

/-- Outcome of the `requests.post` call inside `send_telegram`: either a
response arrived or a transport exception was raised. -/
inductive PostOutcome where
  | response (r : HttpResponse)
  | transportExn (e : String)
deriving Repr, DecidableEq

/-- Embeds `send_telegram` (src/signal_bot_15m.py lines 24-32) as a
function from the post outcome to the console lines it prints. Both
failure modes — a non-200 status and a transport exception — are caught
inside the function, which only prints and returns; it is total, so no
failure propagates to the caller. -/
def send_telegram (outcome : PostOutcome) : List String :=
  match outcome with
  | PostOutcome.response r =>
      if r.status_code ≠ 200 then
        ["Telegram send failed: " ++ toString r.status_code ++ " " ++ r.text]
      else []
  | PostOutcome.transportExn e => ["Telegram error: " ++ e]

/-- Embeds `log_signal` (src/signal_bot_15m.py lines 34-37): appends the
line "[ts] text" to the log file, modelled as its list of lines; the
trailing newline of f.write is the line separator and stays implicit. -/
def log_signal (logFile : List String) (ts text : String) : List String :=
  logFile ++ ["[" ++ ts ++ "] " ++ text]

/-- Embeds the signal-emission step of `main` (src/signal_bot_15m.py
lines 119-127): the message is posted best-effort by `send_telegram`,
then the log line is appended by `log_signal`. Returns the console output
of the post and the new log-file contents. -/
def emitSignal (outcome : PostOutcome) (logFile : List String)
    (sendTs line : String) : List String × List String :=
  (send_telegram outcome, log_signal logFile sendTs line)

/-- Embeds the log text built on src/signal_bot_15m.py line 127: the pair
symbol, pattern type, direction, price and bar timestamp joined with
" | "; the price is taken as already rendered to text. -/
def signalLogText (pair typ direction price ts : String) : String :=
  pair ++ " | " ++ typ ++ " | " ++ direction ++ " | price=" ++ price ++
    " | time=" ++ ts

/-- Modelled from the spec (section 6, Log file): the claimed line body
with the pair symbol enclosed in square brackets, for comparison with
`signalLogText`, which embeds the code. -/
def claimedLogText (pair typ direction price ts : String) : String :=
  "[" ++ pair ++ "]" ++ " | " ++ typ ++ " | " ++ direction ++ " | price=" ++
    price ++ " | time=" ++ ts

end SignalBot

namespace SignalBot

/-- Shared characterisation of the Hammer branch condition. -/
lemma hammer_true_iff (b : Bar) :
    is_hammer_candle b = true ↔
      bodyOf b ≠ 0 ∧ lowerWick b > 1.8 * bodyOf b ∧ upperWick b < 0.6 * bodyOf b := by
  simp only [is_hammer_candle, bodyOf, lowerWick, upperWick]
  by_cases hb : |b.close - b.open_| = 0
  · simp [hb]
  · simp only [hb, if_false, Bool.and_eq_true, decide_eq_true_eq, ne_eq,
      not_false_eq_true, true_and]
    constructor
    · rintro ⟨h1, h2⟩
      exact ⟨by linarith, by linarith⟩
    · rintro ⟨h1, h2⟩
      exact ⟨by linarith, by linarith⟩

/-- Shared characterisation of the Shooting Star branch condition. -/
lemma star_true_iff (b : Bar) :
    is_shooting_star_candle b = true ↔
      bodyOf b ≠ 0 ∧ upperWick b > 1.8 * bodyOf b ∧ lowerWick b < 0.6 * bodyOf b := by
  simp only [is_shooting_star_candle, bodyOf, lowerWick, upperWick]
  by_cases hb : |b.close - b.open_| = 0
  · simp [hb]
  · simp only [hb, if_false, Bool.and_eq_true, decide_eq_true_eq, ne_eq,
      not_false_eq_true, true_and]
    constructor
    · rintro ⟨h1, h2⟩
      exact ⟨by linarith, by linarith⟩
    · rintro ⟨h1, h2⟩
      exact ⟨by linarith, by linarith⟩

/-- A body is never negative, being an absolute value. -/
lemma bodyOf_nonneg (b : Bar) : 0 ≤ bodyOf b := abs_nonneg _

/-- The Hammer scenario bar is detected as a Hammer. -/
lemma hammerSampleBar_is_hammer : is_hammer_candle hammerSampleBar = true := by
  norm_num [is_hammer_candle, hammerSampleBar, min_def, max_def, abs]

/-- The Shooting Star scenario bar is detected as a Shooting Star. -/
lemma starSampleBar_is_star : is_shooting_star_candle starSampleBar = true := by
  norm_num [is_shooting_star_candle, starSampleBar, min_def, max_def, abs]

/-- Evaluating `analyze_pair` on the sample sequence yields the single
Hammer signal priced at the close of the sample bar. -/
lemma analyze_pair_sampleDf :
    analyze_pair (Except.ok sampleDf) =
      Except.ok [("HAMMER", "LONG", (10.2 : ℚ))] := by
  simp [analyze_pair, ilocFromEnd2, sampleDf, hammerSampleBar_is_hammer]
  rfl

/-- C1: for every bar the Hammer detector returns false when the body
|close - open| is zero, and otherwise returns true exactly when the lower
wick exceeds 1.8 times the body and the upper wick is below 0.6 times the
body. -/
theorem hammer_detector_spec (b : Bar) :
    is_hammer_candle b = true ↔
      bodyOf b ≠ 0 ∧ lowerWick b > 1.8 * bodyOf b ∧ upperWick b < 0.6 * bodyOf b :=
  hammer_true_iff b

/-- Concrete instantiation of the C1 theorem: the Hammer scenario bar of
the spec satisfies the threshold conditions, hence the detector fires. -/
theorem hammer_detector_spec_witness :
    is_hammer_candle hammerSampleBar = true :=
  (hammer_detector_spec hammerSampleBar).mpr
    (by norm_num [bodyOf, lowerWick, upperWick, hammerSampleBar, min_def,
      max_def, abs])

/-- C2: for every bar the Shooting Star detector returns false when the
body |close - open| is zero, and otherwise returns true exactly when the
upper wick exceeds 1.8 times the body and the lower wick is below 0.6
times the body. -/
theorem shooting_star_detector_spec (b : Bar) :
    is_shooting_star_candle b = true ↔
      bodyOf b ≠ 0 ∧ upperWick b > 1.8 * bodyOf b ∧ lowerWick b < 0.6 * bodyOf b :=
  star_true_iff b

/-- Concrete instantiation of the C2 theorem: the Shooting Star scenario
bar of the spec satisfies the threshold conditions, hence the detector
fires. -/
theorem shooting_star_detector_spec_witness :
    is_shooting_star_candle starSampleBar = true :=
  (shooting_star_detector_spec starSampleBar).mpr
    (by norm_num [bodyOf, lowerWick, upperWick, starSampleBar, min_def,
      max_def, abs])

/-- C3: for every bar, with no validity precondition on its fields, the
Hammer predicate and the Shooting Star predicate are never both true. -/
theorem hammer_shooting_star_mutually_exclusive (b : Bar) :
    ¬ (is_hammer_candle b = true ∧ is_shooting_star_candle b = true) := by
  rintro ⟨hH, hS⟩
  rw [hammer_true_iff] at hH
  rw [star_true_iff] at hS
  obtain ⟨hb0, -, hHu⟩ := hH
  obtain ⟨-, hSu, -⟩ := hS
  have hpos : 0 < bodyOf b := lt_of_le_of_ne (bodyOf_nonneg b) (Ne.symm hb0)
  linarith

/-- Concrete instantiation of the C3 theorem at the Hammer scenario
bar. -/
theorem hammer_shooting_star_mutually_exclusive_witness :
    ¬ (is_hammer_candle hammerSampleBar = true ∧
        is_shooting_star_candle hammerSampleBar = true) :=
  hammer_shooting_star_mutually_exclusive hammerSampleBar

/-- C4: for every integer UTC timestamp t, the computed wait w satisfies
0 ≤ w < 900 and (t + w) mod 900 = 0. -/
theorem seconds_until_next_15min_boundary (t : ℤ) :
    0 ≤ seconds_until_next_15min t ∧ seconds_until_next_15min t < 900 ∧
      (t + seconds_until_next_15min t) % 900 = 0 := by
  unfold seconds_until_next_15min
  by_cases h : t % (15 * 60) = 0 <;> simp [h] <;> omega

/-- Concrete instantiation of the C4 theorem at timestamp 1000. -/
theorem seconds_until_next_15min_boundary_witness :
    0 ≤ seconds_until_next_15min 1000 ∧ seconds_until_next_15min 1000 < 900 ∧
      (1000 + seconds_until_next_15min 1000) % 900 = 0 :=
  seconds_until_next_15min_boundary 1000

/-- C5: whenever the per-pair analysis completes, it yields at most one
signal; and when the fetched sequence is available, the outcome is
determined by the single bar `df.iloc[-2]` (the second-from-newest),
with Hammer evaluated first and Shooting Star only when Hammer did not
match. -/
theorem analyze_pair_at_most_one_signal (fetched : Except String (List Bar))
    (sigs : List (String × String × ℚ))
    (h : analyze_pair fetched = Except.ok sigs) :
    sigs.length ≤ 1 ∧
      ∀ df : List Bar, fetched = Except.ok df →
        ∃ b : Bar, ilocFromEnd2 df = some b ∧
          ((is_hammer_candle b = true ∧ sigs = [("HAMMER", "LONG", b.close)]) ∨
           (is_hammer_candle b = false ∧ is_shooting_star_candle b = true ∧
             sigs = [("SHOOTING_STAR", "SHORT", b.close)]) ∨
           (is_hammer_candle b = false ∧ is_shooting_star_candle b = false ∧
             sigs = [])) := by
  cases fetched with
  | error e =>
    have hs : sigs = [] := by
      simpa [analyze_pair] using h
    subst hs
    refine ⟨by simp, ?_⟩
    intro df hdf
    exact absurd hdf (by simp)
  | ok df =>
    rcases hix : ilocFromEnd2 df with _ | b
    · rw [analyze_pair.eq_def] at h
      simp only [hix] at h
      exact absurd h (by simp)
    · rw [analyze_pair.eq_def] at h
      simp only [hix] at h
      have hs : sigs =
          (if is_hammer_candle b then [("HAMMER", "LONG", b.close)]
           else if is_shooting_star_candle b then [("SHOOTING_STAR", "SHORT", b.close)]
           else []) := (Except.ok.inj h).symm
      subst hs
      constructor
      · split_ifs <;> simp
      · intro df2 hdf2
        have hdf : df2 = df := (Except.ok.inj hdf2).symm
        subst hdf
        refine ⟨b, hix, ?_⟩
        by_cases hH : is_hammer_candle b = true
        · exact Or.inl ⟨hH, by simp [hH]⟩
        · have hHf : is_hammer_candle b = false := by
            simpa using hH
          by_cases hS : is_shooting_star_candle b = true
          · exact Or.inr (Or.inl ⟨hHf, hS, by simp [hHf, hS]⟩)
          · have hSf : is_shooting_star_candle b = false := by
              simpa using hS
            exact Or.inr (Or.inr ⟨hHf, hSf, by simp [hHf, hSf]⟩)

/-- Concrete instantiation of the C5 theorem on the sample fetched
sequence: the second-from-newest bar exists and yields exactly the single
Hammer signal. -/
theorem analyze_pair_at_most_one_signal_witness :
    ∃ b : Bar, ilocFromEnd2 sampleDf = some b ∧
      ((is_hammer_candle b = true ∧
          [("HAMMER", "LONG", (10.2 : ℚ))] = [("HAMMER", "LONG", b.close)]) ∨
       (is_hammer_candle b = false ∧ is_shooting_star_candle b = true ∧
          [("HAMMER", "LONG", (10.2 : ℚ))] = [("SHOOTING_STAR", "SHORT", b.close)]) ∨
       (is_hammer_candle b = false ∧ is_shooting_star_candle b = false ∧
          ([("HAMMER", "LONG", (10.2 : ℚ))] : List (String × String × ℚ)) = [])) :=
  (analyze_pair_at_most_one_signal (Except.ok sampleDf)
    [("HAMMER", "LONG", (10.2 : ℚ))] analyze_pair_sampleDf).2 sampleDf rfl

/-- C6: when the fetch for the pair at position k fails, that pair
contributes no signals (the error is swallowed at the per-pair boundary),
and every pair of the cycle — including all pairs after k — is still
visited with its own independent result. -/
theorem fetch_failure_isolated (fetch : String → Except String (List Bar))
    (pairs : List String) (k : ℕ) (hk : k < pairs.length) (e : String)
    (hfail : fetch pairs[k] = Except.error e) :
    (scanCycle fetch pairs).length = pairs.length ∧
    (scanCycle fetch pairs)[k]? = some (pairs[k], []) ∧
    ∀ j (hj : j < pairs.length),
      (scanCycle fetch pairs)[j]? =
        some (pairs[j], pairScanResult (fetch pairs[j])) := by
  refine ⟨by simp [scanCycle], ?_, ?_⟩
  · simp [scanCycle, List.getElem?_eq_getElem hk, pairScanResult, hfail,
      analyze_pair]
  · intro j hj
    simp [scanCycle, List.getElem?_eq_getElem hj]

/-- Concrete instantiation of the C6 theorem: with the fetch for
BCH/USDT (position 1 of PAIRS) failing, that pair yields no signals and
the later pair SOL/USDT is still processed with its own result. -/
theorem fetch_failure_isolated_witness :
    (scanCycle sampleFetch PAIRS)[1]? = some ("BCH/USDT", []) ∧
    (scanCycle sampleFetch PAIRS)[2]? =
      some ("SOL/USDT", pairScanResult (sampleFetch "SOL/USDT")) :=
  ⟨(fetch_failure_isolated sampleFetch PAIRS 1 (by simp [PAIRS]) "network"
      (by simp [sampleFetch, PAIRS])).2.1,
   by
    simpa [PAIRS] using
      (fetch_failure_isolated sampleFetch PAIRS 1 (by simp [PAIRS]) "network"
        (by simp [sampleFetch, PAIRS])).2.2 2 (by simp [PAIRS])⟩

/-- C7: on the bar open=100, high=100.5, low=90, close=99 (body 1,
lower wick 9, upper wick 0.5) the Hammer detector returns true. -/
theorem hammer_detected_on_spec_bar :
    is_hammer_candle ⟨100, 100.5, 90, 99⟩ = true := by
  norm_num [is_hammer_candle, min_def, max_def, abs]

/-- C8: whatever the outcome of the webhook post — success, non-200
response or transport exception — the emission step completes and the
line of the signal is still appended to the log file afterwards; the
post failure surfaces only as console text from `send_telegram`. -/
theorem failed_notification_preserves_log (outcome : PostOutcome)
    (logFile : List String) (sendTs line : String) :
    (emitSignal outcome logFile sendTs line).2 =
        logFile ++ ["[" ++ sendTs ++ "] " ++ line] ∧
    (∀ other : PostOutcome,
      (emitSignal outcome logFile sendTs line).2 =
        (emitSignal other logFile sendTs line).2) ∧
    (∀ e : String,
      send_telegram (PostOutcome.transportExn e) = ["Telegram error: " ++ e]) :=
  ⟨rfl, fun _ => rfl, fun _ => rfl⟩

/-- Concrete instantiation of the C8 theorem: a transport exception on
the post still leaves the log line appended. -/
theorem failed_notification_preserves_log_witness :
    (emitSignal (PostOutcome.transportExn "timeout") [] "2025-01-01 00:00:00 UTC"
        (signalLogText "ETH/USDT" "HAMMER" "LONG" "10.2" "2025-01-01 00:00 UTC")).2 =
      [] ++ ["[" ++ "2025-01-01 00:00:00 UTC" ++ "] " ++
        signalLogText "ETH/USDT" "HAMMER" "LONG" "10.2" "2025-01-01 00:00 UTC"] :=
  (failed_notification_preserves_log (PostOutcome.transportExn "timeout") []
    "2025-01-01 00:00:00 UTC"
    (signalLogText "ETH/USDT" "HAMMER" "LONG" "10.2" "2025-01-01 00:00 UTC")).1

/-- C9 counterexample: on a concrete signal the line body written by the
code does not enclose the pair symbol in square brackets, so it differs
from the format the claim asserts. -/
theorem log_line_symbol_not_bracketed :
    signalLogText "ETH/USDT" "HAMMER" "LONG" "10.2" "2025-01-01 00:00 UTC" ≠
      claimedLogText "ETH/USDT" "HAMMER" "LONG" "10.2" "2025-01-01 00:00 UTC" := by
  decide

/-- C9 as amended: every line appended to the log file has the format
"symbol | PATTERN_KIND | DIRECTION | price=float | time=UTC string" with
the pair symbol bare (not enclosed in square brackets), the whole line
prefixed separately by a bracketed UTC send-timestamp written by the
logger, and the previous log contents preserved. -/
theorem log_line_format_amended (pair typ direction price ts sendTs : String)
    (logFile : List String) :
    log_signal logFile sendTs (signalLogText pair typ direction price ts) =
      logFile ++
        ["[" ++ sendTs ++ "] " ++
          (pair ++ " | " ++ typ ++ " | " ++ direction ++ " | price=" ++ price ++
            " | time=" ++ ts)] := rfl

/-- Concrete instantiation of the amended C9 theorem. -/
theorem log_line_format_amended_witness :
    log_signal [] "S" (signalLogText "ETH/USDT" "HAMMER" "LONG" "10.2" "T") =
      [] ++ ["[" ++ "S" ++ "] " ++
        ("ETH/USDT" ++ " | " ++ "HAMMER" ++ " | " ++ "LONG" ++ " | price=" ++
          "10.2" ++ " | time=" ++ "T")] :=
  log_line_format_amended "ETH/USDT" "HAMMER" "LONG" "10.2" "T" "S" []

/-- C10: when the fetch for the pair at position k succeeds but returns
fewer than two bars, the `df.iloc[-2]` access has no guard: its error
branch is reached and `analyze_pair` fails, the failure is caught only by
the per-pair handler of the driver so the pair yields no signals, and
every pair of the cycle is still visited with its own independent
result. -/
theorem short_fetch_errors_isolated (fetch : String → Except String (List Bar))
    (pairs : List String) (k : ℕ) (hk : k < pairs.length) (bars : List Bar)
    (hfetch : fetch pairs[k] = Except.ok bars)
    (hshort : bars.length < 2) :
    ilocFromEnd2 bars = none ∧
    analyze_pair (fetch pairs[k]) = Except.error "IndexError" ∧
    (scanCycle fetch pairs)[k]? = some (pairs[k], []) ∧
    ∀ j (hj : j < pairs.length),
      (scanCycle fetch pairs)[j]? =
        some (pairs[j], pairScanResult (fetch pairs[j])) := by
  have hnone : ilocFromEnd2 bars = none := by
    unfold ilocFromEnd2
    rw [dif_neg (by omega)]
  have hanalyze : analyze_pair (fetch pairs[k]) =
      Except.error "IndexError" := by
    rw [hfetch, analyze_pair.eq_def]
    simp only [hnone]
  refine ⟨hnone, hanalyze, ?_, ?_⟩
  · simp [scanCycle, List.getElem?_eq_getElem hk, pairScanResult, hanalyze]
  · intro j hj
    simp [scanCycle, List.getElem?_eq_getElem hj]

/-- Concrete instantiation of the C10 theorem: the fetch for ETH/USDT
(position 0 of PAIRS) returns a single bar, the second-from-newest access
fails, the pair yields no signals and the later pair SOL/USDT is still
processed with its own result. -/
theorem short_fetch_errors_isolated_witness :
    ilocFromEnd2 [dojiBar] = none ∧
    (scanCycle sampleFetch PAIRS)[0]? = some ("ETH/USDT", []) ∧
    (scanCycle sampleFetch PAIRS)[2]? =
      some ("SOL/USDT", pairScanResult (sampleFetch "SOL/USDT")) :=
  ⟨(short_fetch_errors_isolated sampleFetch PAIRS 0 (by simp [PAIRS]) [dojiBar]
      (by simp [sampleFetch, PAIRS]) (by simp)).1,
   (short_fetch_errors_isolated sampleFetch PAIRS 0 (by simp [PAIRS]) [dojiBar]
      (by simp [sampleFetch, PAIRS]) (by simp)).2.2.1,
   by
    simpa [PAIRS] using
      (short_fetch_errors_isolated sampleFetch PAIRS 0 (by simp [PAIRS]) [dojiBar]
        (by simp [sampleFetch, PAIRS]) (by simp)).2.2.2 2 (by simp [PAIRS])⟩

end SignalBot
